import Mathlib

/-!
Verification of the Photobooth single-page application (src/app/page.tsx).

Shallow embedding: the React component state is a record `BoothState`;
event handlers are state transformers; `setTimeout` timers and the
asynchronous image-decode callbacks of the composite renderer are explicit
events.  The 2D drawing context is a record that logs every `drawImage`
together with the filter and horizontal scale active at draw time.
-/

namespace Photobooth

/-- The seven filter identifiers (`FilterType` in page.tsx). -/
inductive FilterType
  | f90s | f2000s | noir | fisheye | rainbow | glitch | crosshatch
deriving BEq, DecidableEq

/-- One entry of the `availableFilters` catalogue. -/
structure FilterDescriptor where
  name : FilterType
  label : String
  css : String
deriving BEq, DecidableEq

/-- The static filter catalogue, exactly as listed in page.tsx. -/
def availableFilters : List FilterDescriptor :=
  [ ⟨.f90s, "90s", "sepia(0.8) saturate(1.4) hue-rotate(315deg) brightness(1.1)"⟩,
    ⟨.f2000s, "2000s", "saturate(1.6) contrast(1.2) brightness(1.1) hue-rotate(10deg)"⟩,
    ⟨.noir, "Noir", "grayscale(1) contrast(1.3) brightness(0.9)"⟩,
    ⟨.fisheye, "Fisheye", "contrast(1.2) saturate(1.3)"⟩,
    ⟨.rainbow, "Rainbow", "hue-rotate(180deg) saturate(2) brightness(1.2)"⟩,
    ⟨.glitch, "Glitch", "hue-rotate(90deg) saturate(2) contrast(1.5)"⟩,
    ⟨.crosshatch, "Crosshatch", "contrast(1.4) brightness(0.8) saturate(0.8)"⟩ ]

/-- `availableFilters.find((f) => f.name === currentFilter)?.css || ""`. -/
def filterCssOf (f : FilterType) : String :=
  ((availableFilters.find? (fun d => d.name == f)).map (fun d => d.css)).getD ""

/-- `CapturedPhoto` of page.tsx: a data URL plus a capture timestamp. -/
structure CapturedPhoto where
  dataUrl : String
  timestamp : Nat
deriving DecidableEq

/-- A media track of the camera stream; `stopped` is set by `track.stop()`. -/
structure MediaTrack where
  stopped : Bool
deriving DecidableEq

/-- The camera `MediaStream`: a bag of tracks. -/
structure CamStream where
  tracks : List MediaTrack
deriving DecidableEq

/-- A stream is open when it exists and none of its tracks has been stopped. -/
def streamOpen : Option CamStream → Bool
  | none => false
  | some ms => ms.tracks.all (fun t => !t.stopped)

/-- The live video element, exposing its native frame resolution. -/
structure Video where
  videoWidth : Nat
  videoHeight : Nat
deriving DecidableEq

/-- One `drawImage` call recorded on a 2D context, together with the
filter string and the horizontal scale factor active at draw time. -/
structure DrawImageOp where
  src : String
  dx : Int
  dy : Int
  filterAtDraw : String
  scaleXAtDraw : Int
deriving DecidableEq

/-- A 2D drawing context: current filter, current horizontal scale,
the `save`/`restore` stack, and the log of draw calls. -/
structure Ctx2D where
  filter : String
  scaleX : Int
  saved : List (String × Int)
  ops : List DrawImageOp
deriving DecidableEq

/-- `context.filter = f`. -/
def ctxSetFilter (f : String) (c : Ctx2D) : Ctx2D := { c with filter := f }

/-- `context.save()`: push filter and transform. -/
def ctxSave (c : Ctx2D) : Ctx2D := { c with saved := (c.filter, c.scaleX) :: c.saved }

/-- `context.scale(sx, 1)`. -/
def ctxScale (sx : Int) (c : Ctx2D) : Ctx2D := { c with scaleX := c.scaleX * sx }

/-- `context.drawImage(src, dx, dy)`: log the draw with the current state. -/
def ctxDrawImage (src : String) (dx dy : Int) (c : Ctx2D) : Ctx2D :=
  { c with ops := c.ops ++ [⟨src, dx, dy, c.filter, c.scaleX⟩] }

/-- `context.restore()`: pop filter and transform. -/
def ctxRestore (c : Ctx2D) : Ctx2D :=
  match c.saved with
  | [] => c
  | (f, sx) :: rest => { c with filter := f, scaleX := sx, saved := rest }

/-- A context in its default state (identity transform, no filter). -/
def freshCtx : Ctx2D := { filter := "none", scaleX := 1, saved := [], ops := [] }

/-- The offscreen canvas: just its dimensions. -/
structure Canvas where
  width : Nat
  height : Nat
deriving DecidableEq

/-- The DOM environment `captureCurrentFrame` reads: `videoRef.current`,
`canvasRef.current` and the result of `canvas.getContext("2d")`. -/
structure CaptureEnv where
  video : Option Video
  canvasPresent : Bool
  ctx0 : Option Ctx2D

/-- `captureCurrentFrame` (page.tsx lines 175-198): returns `none` when the
video element, the canvas element or its 2D context is unavailable;
otherwise sizes the canvas to the native video resolution, sets the active
filter, draws the video mirrored (`scale(-1,1)`, `drawImage` at
`-canvas.width`), restores, resets the filter to `"none"`, and encodes. -/
def captureCurrentFrame (env : CaptureEnv) (currentFilter : FilterType) :
    Option (Canvas × Ctx2D × String) :=
  match env.video, env.canvasPresent with
  | some video, true =>
    match env.ctx0 with
    | none => none
    | some ctx0 =>
      let canvas : Canvas := ⟨video.videoWidth, video.videoHeight⟩
      let selectedFilter := filterCssOf currentFilter
      let c1 := ctxSetFilter selectedFilter ctx0
      let c2 := ctxSave c1
      let c3 := ctxScale (-1) c2
      let c4 := ctxDrawImage "video" (-(canvas.width : Int)) 0 c3
      let c5 := ctxRestore c4
      let c6 := ctxSetFilter "none" c5
      some (canvas, c6, "image/jpeg@0.9")
  | _, _ => none

/-- The context state `captureCurrentFrame` leaves behind on success:
the input context with one mirrored, filtered draw appended and the
filter reset to `"none"` (stated for a context at identity transform). -/
def mirroredCaptureCtx (v : Video) (c0 : Ctx2D) (f : FilterType) : Ctx2D :=
  { c0 with filter := "none",
            ops := c0.ops ++ [⟨"video", -(v.videoWidth : Int), 0, filterCssOf f, -1⟩] }

/-- The React state of the component (the `useState` hooks of page.tsx),
plus `stripTimer`, the pending `setTimeout(() => setShowPhotoStrip(true), 500)`
delay in milliseconds, and `alerts`, the log of `alert(...)` calls. -/
structure BoothState where
  stream : Option CamStream
  isCapturing : Bool
  countdown : Option String
  capturedPhotos : List CapturedPhoto
  currentFilter : FilterType
  showPhotoStrip : Bool
  isLoading : Bool
  showCurtains : Bool
  stripTimer : Option Nat
  alerts : List String

/-- The spec's `SessionPhase` enumeration. -/
inductive SessionPhase
  | intro | awaitingDevice | live | reviewing
deriving DecidableEq

/-- The phase the component renders, following the three early returns of
page.tsx: curtains view, loading view, then strip view vs. live view. -/
def phaseOf (s : BoothState) : SessionPhase :=
  if s.showCurtains then .intro
  else if s.isLoading then .awaitingDevice
  else if s.showPhotoStrip then .reviewing
  else .live

/-- `handlePhotoCapture` (page.tsx lines 200-230).  Rejects when a capture
is in flight or three stills already exist; otherwise runs the countdown
(cleared at the end), reads a frame via `captureCurrentFrame`, appends the
still on success, schedules the 500 ms photo-strip timeout when the new
count is exactly 3, and clears the in-progress marker on every path. -/
def handlePhotoCapture (env : CaptureEnv) (ts : Nat) (s : BoothState) : BoothState :=
  if s.isCapturing = true ∨ 3 ≤ s.capturedPhotos.length then s
  else
    match captureCurrentFrame env s.currentFilter with
    | none => { s with isCapturing := false, countdown := none }
    | some (_, _, dataUrl) =>
      let updated := s.capturedPhotos ++ [⟨dataUrl, ts⟩]
      { s with capturedPhotos := updated,
               countdown := none,
               isCapturing := false,
               stripTimer := if updated.length = 3 then some 500 else s.stripTimer }

/-- `resetPhotoBooth` (page.tsx lines 317-321): hide the strip, drop all
stills, clear the countdown.  The stream is untouched. -/
def resetPhotoBooth (s : BoothState) : BoothState :=
  { s with showPhotoStrip := false, capturedPhotos := [], countdown := none }

/-- The discrete events that can reach the component while it is live:
a shutter press (with the DOM environment and timestamp it observes),
the photo-strip timeout firing, the Reshoot button, a filter button. -/
inductive Event
  | capture (env : CaptureEnv) (ts : Nat)
  | stripFire
  | reset
  | selectFilter (f : FilterType)

/-- Dispatch one event.  `stripFire` consumes the pending timeout and shows
the strip.  `reset` is the Reshoot button, rendered only in the strip view,
so it is a no-op unless `showPhotoStrip` is set; likewise the filter
buttons are rendered only in the live view. -/
def stepEvent (e : Event) (s : BoothState) : BoothState :=
  match e with
  | .capture env ts => handlePhotoCapture env ts s
  | .stripFire =>
    match s.stripTimer with
    | some _ => { s with stripTimer := none, showPhotoStrip := true }
    | none => s
  | .reset => if s.showPhotoStrip then resetPhotoBooth s else s
  | .selectFilter f => if s.showPhotoStrip then s else { s with currentFilter := f }

/-- The state right after a successful camera acquisition: live phase,
no stills, no capture in flight, one open track. -/
def initState : BoothState :=
  { stream := some ⟨[⟨false⟩]⟩,
    isCapturing := false,
    countdown := none,
    capturedPhotos := [],
    currentFilter := .f2000s,
    showPhotoStrip := false,
    isLoading := false,
    showCurtains := false,
    stripTimer := none,
    alerts := [] }

/-- Run a list of events from a state. -/
def runEvents (es : List Event) (s : BoothState) : BoothState :=
  es.foldl (fun s e => stepEvent e s) s

/-- The reachability invariant: at most three stills; the strip timeout is
only ever the 500 ms one and only pending at exactly three stills; the
strip is only shown at exactly three stills, with no timeout pending. -/
def Inv (s : BoothState) : Prop :=
  s.capturedPhotos.length ≤ 3 ∧
  (s.stripTimer ≠ none → s.capturedPhotos.length = 3 ∧ s.stripTimer = some 500) ∧
  (s.showPhotoStrip = true → s.capturedPhotos.length = 3 ∧ s.stripTimer = none)

/-! ## Composite renderer (`createPhotoStrip`, page.tsx lines 232-300) -/

/-- Layout constants of `createPhotoStrip`. -/
def STRIP_WIDTH : Nat := 260

def STRIP_HEIGHT : Nat := 650

def PHOTO_WIDTH : Nat := 220

def PHOTO_HEIGHT : Nat := 165

def MARGIN : Nat := 20

def PHOTO_SPACING : Nat := 20

/-- `MARGIN + index * (PHOTO_HEIGHT + PHOTO_SPACING)`. -/
def yPositionOf (index : Nat) : Nat := MARGIN + index * (PHOTO_HEIGHT + PHOTO_SPACING)

/-- The drawing operations of the photo-strip canvas, in issue order:
background gradient fill, outer border, the white backing card (with its
drop shadow), the photo draw at a capture index, the thin photo border,
and the caption text (at its x, y anchor). -/
inductive StripOp
  | fillRectBg (x y w h : Nat)
  | strokeRectBorder (x y w h : Nat)
  | cardRect (x y w h : Nat)
  | drawImage (index x y w h : Nat)
  | photoBorder (x y w h : Nat)
  | caption (x y : Nat)
deriving DecidableEq

/-- The renderer's mutable state: the `loadedCount` counter and the log of
operations issued on the strip canvas. -/
structure StripState where
  loadedCount : Nat
  ops : List StripOp
deriving DecidableEq

/-- The `img.onload` handler for the still at capture `index`
(page.tsx lines 262-297): draw the backing card, the photo at
`yPosition = MARGIN + index * (PHOTO_HEIGHT + PHOTO_SPACING)`, the photo
border; increment `loadedCount`; when it reaches 3, draw the caption
centered at `(STRIP_WIDTH / 2, STRIP_HEIGHT - 40)`. -/
def stripOnLoad (index : Nat) (st : StripState) : StripState :=
  let y := yPositionOf index
  let withPhoto := st.ops ++
    [StripOp.cardRect (MARGIN - 5) (y - 5) (PHOTO_WIDTH + 10) (PHOTO_HEIGHT + 10),
     StripOp.drawImage index MARGIN y PHOTO_WIDTH PHOTO_HEIGHT,
     StripOp.photoBorder MARGIN y PHOTO_WIDTH PHOTO_HEIGHT]
  let newCount := st.loadedCount + 1
  if newCount = 3 then
    { loadedCount := newCount,
      ops := withPhoto ++ [StripOp.caption (STRIP_WIDTH / 2) (STRIP_HEIGHT - 40)] }
  else
    { loadedCount := newCount, ops := withPhoto }

/-- The strip canvas right after the synchronous part of `createPhotoStrip`:
background gradient and outer border drawn, no decode completed yet. -/
def initStripState : StripState :=
  { loadedCount := 0,
    ops := [StripOp.fillRectBg 0 0 STRIP_WIDTH STRIP_HEIGHT,
            StripOp.strokeRectBorder 1 1 (STRIP_WIDTH - 2) (STRIP_HEIGHT - 2)] }

/-- Fire the asynchronous decode completions in the given arrival order
(a permutation of the capture indices 0, 1, 2). -/
def runLoads (order : List Nat) (st : StripState) : StripState :=
  order.foldl (fun st i => stripOnLoad i st) st

/-- `createPhotoStrip` (page.tsx lines 232-300): a no-op unless the strip
canvas is mounted, exactly 3 stills exist, and a 2D context is available;
otherwise the synchronous background is drawn and the three decode
callbacks fire in `order`, the decode arrival order. -/
def createPhotoStrip (canvasPresent : Bool) (ctxPresent : Bool)
    (photos : List CapturedPhoto) (order : List Nat) : Option StripState :=
  if canvasPresent = false ∨ photos.length ≠ 3 then none
  else if ctxPresent = false then none
  else some (runLoads order initStripState)

/-! ## Device acquisition (`requestCameraAccess`, page.tsx lines 65-148) -/

/-- The three fallback camera configurations, in preference order:
ideal 640x480 front-facing, unconstrained, fixed 640x480. -/
inductive CameraConfig
  | idealUser | unconstrained | fixed640
deriving DecidableEq

/-- The `cameraConfigs` list of page.tsx. -/
def cameraConfigs : List CameraConfig := [.idealUser, .unconstrained, .fixed640]

/-- The `getUserMedia` fallback loop: first configuration that yields a
stream wins; `none` when every configuration fails. -/
def firstStream (tryConfig : CameraConfig → Option CamStream) :
    List CameraConfig → Option CamStream
  | [] => none
  | c :: rest =>
    match tryConfig c with
    | some ms => some ms
    | none => firstStream tryConfig rest

/-- The platform environment `requestCameraAccess` runs against. -/
structure AcquireEnv where
  mediaDevicesSupported : Bool
  tryConfig : CameraConfig → Option CamStream
  videoElementPresent : Bool
  videoBecomesReady : Bool

/-- The fixed prefix of the `alert` raised by the catch block. -/
def cameraErrorAlert : String := "Camera Error"

/-- `requestCameraAccess` (page.tsx lines 65-148).  On an unsupported
platform or when every fallback configuration fails, the catch block runs:
it sets `isLoading` to `false` and raises the camera-error alert.  On
success the stream is stored; if the bound video element never becomes
ready the catch block also runs.  Every path ends with `isLoading = false`. -/
def requestCameraAccess (env : AcquireEnv) (s : BoothState) : BoothState :=
  if env.mediaDevicesSupported = false then
    { s with isLoading := false, alerts := s.alerts ++ [cameraErrorAlert] }
  else
    match firstStream env.tryConfig cameraConfigs with
    | none => { s with isLoading := false, alerts := s.alerts ++ [cameraErrorAlert] }
    | some ms =>
      if env.videoElementPresent = true ∧ env.videoBecomesReady = false then
        { s with stream := some ms, isLoading := false,
                 alerts := s.alerts ++ [cameraErrorAlert] }
      else
        { s with stream := some ms, isLoading := false }

/-- The loading-phase state just before acquisition: curtains gone,
`isLoading` still true. -/
def loadingState : BoothState :=
  { stream := none,
    isCapturing := false,
    countdown := none,
    capturedPhotos := [],
    currentFilter := .f2000s,
    showPhotoStrip := false,
    isLoading := true,
    showCurtains := false,
    stripTimer := none,
    alerts := [] }

/-- An environment in which every fallback configuration fails. -/
def allFailEnv : AcquireEnv :=
  { mediaDevicesSupported := true,
    tryConfig := fun _ => none,
    videoElementPresent := true,
    videoBecomesReady := true }

/-- A DOM environment in which capture succeeds: live video at 640x480,
canvas mounted, fresh 2D context. -/
def goodEnv : CaptureEnv :=
  { video := some ⟨640, 480⟩, canvasPresent := true, ctx0 := some freshCtx }

/-- A DOM environment in which the video element is unavailable, so the
frame read returns nothing. -/
def noVideoEnv : CaptureEnv :=
  { video := none, canvasPresent := true, ctx0 := some freshCtx }

/-- Three already-captured stills, for concrete runs. -/
def photos3 : List CapturedPhoto := [⟨"p0", 0⟩, ⟨"p1", 1⟩, ⟨"p2", 2⟩]

/-- A live state that already holds the maximum of three stills. -/
def fullState : BoothState := { initState with capturedPhotos := photos3 }

/-- A live state with a capture already in flight. -/
def busyState : BoothState := { initState with isCapturing := true }

/-- The reviewing state: three stills and the strip shown. -/
def reviewState : BoothState :=
  { initState with capturedPhotos := photos3, showPhotoStrip := true }

/-- Three successful shutter presses from the initial live state. -/
def es3 : List Event :=
  [Event.capture goodEnv 1, Event.capture goodEnv 2, Event.capture goodEnv 3]

theorem inv_initState : Inv initState := by
  refine ⟨by simp [initState], ?_, ?_⟩ <;> simp [initState]

theorem inv_step (e : Event) (s : BoothState) (h : Inv s) : Inv (stepEvent e s) := by
  obtain ⟨h1, h2, h3⟩ := h
  cases e with
  | capture env ts =>
    show Inv (handlePhotoCapture env ts s)
    unfold handlePhotoCapture
    by_cases hg : s.isCapturing = true ∨ 3 ≤ s.capturedPhotos.length
    · simp only [if_pos hg]
      exact ⟨h1, h2, h3⟩
    · simp only [if_neg hg]
      have hlt : s.capturedPhotos.length < 3 := by
        rcases Nat.lt_or_ge s.capturedPhotos.length 3 with h | h
        · exact h
        · exact absurd (Or.inr h) hg
      cases hcf : captureCurrentFrame env s.currentFilter with
      | none =>
        refine ⟨h1, ?_, ?_⟩
        · intro ht
          exact absurd (h2 ht).1 (Nat.ne_of_lt hlt)
        · intro hs
          exact absurd (h3 hs).1 (Nat.ne_of_lt hlt)
      | some r =>
        obtain ⟨c, x, u⟩ := r
        refine ⟨?_, ?_, ?_⟩
        · show (s.capturedPhotos ++ [CapturedPhoto.mk u ts]).length ≤ 3
          simp only [List.length_append, List.length_singleton]
          omega
        · show (if (s.capturedPhotos ++ [CapturedPhoto.mk u ts]).length = 3 then some 500
              else s.stripTimer) ≠ none →
            (s.capturedPhotos ++ [CapturedPhoto.mk u ts]).length = 3 ∧
            (if (s.capturedPhotos ++ [CapturedPhoto.mk u ts]).length = 3 then some 500
              else s.stripTimer) = some 500
          intro ht
          by_cases h3len : (s.capturedPhotos ++ [CapturedPhoto.mk u ts]).length = 3
          · rw [if_pos h3len]
            exact ⟨h3len, rfl⟩
          · rw [if_neg h3len] at ht
            exact absurd (h2 ht).1 (Nat.ne_of_lt hlt)
        · intro hs
          exact absurd (h3 hs).1 (Nat.ne_of_lt hlt)
  | stripFire =>
    show Inv (match s.stripTimer with
      | some _ => { s with stripTimer := none, showPhotoStrip := true }
      | none => s)
    cases ht : s.stripTimer with
    | none => exact ⟨h1, h2, h3⟩
    | some d =>
      have hlen : s.capturedPhotos.length = 3 := (h2 (by simp [ht])).1
      exact ⟨h1, by simp, by simp [hlen]⟩
  | reset =>
    show Inv (if s.showPhotoStrip then resetPhotoBooth s else s)
    by_cases hs : s.showPhotoStrip
    · have htim : s.stripTimer = none := (h3 hs).2
      rw [if_pos hs]
      refine ⟨by simp [resetPhotoBooth], ?_, ?_⟩
      · intro ht
        exact absurd htim ht
      · intro ht
        exact absurd ht (by simp [resetPhotoBooth])
    · rw [if_neg hs]
      exact ⟨h1, h2, h3⟩
  | selectFilter f =>
    show Inv (if s.showPhotoStrip then s else { s with currentFilter := f })
    by_cases hs : s.showPhotoStrip
    · simp only [if_pos hs]
      exact ⟨h1, h2, h3⟩
    · simp only [if_neg hs]
      exact ⟨h1, h2, h3⟩

theorem inv_runEvents_from (es : List Event) (s : BoothState) (h : Inv s) :
    Inv (runEvents es s) := by
  induction es generalizing s with
  | nil => exact h
  | cons e rest ih => exact ih (stepEvent e s) (inv_step e s h)

theorem inv_runEvents (es : List Event) : Inv (runEvents es initState) :=
  inv_runEvents_from es initState inv_initState

/-- C1: in every session, under every sequence of events, the number of
captured stills never exceeds 3; moreover `handlePhotoCapture` is rejected
(the state is returned unchanged) whenever the still count is already 3. -/
theorem captures_never_exceed_three (es : List Event) :
    (runEvents es initState).capturedPhotos.length ≤ 3 ∧
    ∀ env ts s, 3 ≤ s.capturedPhotos.length → handlePhotoCapture env ts s = s := by
  refine ⟨(inv_runEvents es).1, ?_⟩
  intro env ts s h
  unfold handlePhotoCapture
  rw [if_pos (Or.inr h)]

theorem captures_never_exceed_three_witness :
    3 ≤ fullState.capturedPhotos.length ∧ handlePhotoCapture goodEnv 9 fullState = fullState :=
  ⟨by decide, (captures_never_exceed_three []).2 goodEnv 9 fullState (by decide)⟩

/-- C2: invoking `handlePhotoCapture` while `isCapturing` is set is rejected
immediately: the state — in particular the still count — is unchanged, and
nothing is queued. -/
theorem capture_reentry_rejected (env : CaptureEnv) (ts : Nat) (s : BoothState)
    (h : s.isCapturing = true) : handlePhotoCapture env ts s = s := by
  unfold handlePhotoCapture
  rw [if_pos (Or.inl h)]

theorem capture_reentry_rejected_witness :
    busyState.isCapturing = true ∧ handlePhotoCapture goodEnv 7 busyState = busyState :=
  ⟨rfl, capture_reentry_rejected goodEnv 7 busyState rfl⟩

/-- C10: on every completion path of `handlePhotoCapture` — frame read
failed, frame read succeeded, or rejected at the limit — the in-progress
marker ends up false (given it was false at entry), so a later capture is
never rejected for `AlreadyCapturing` after a silent abort. -/
theorem capture_clears_in_progress (env : CaptureEnv) (ts : Nat) (s : BoothState)
    (h : s.isCapturing = false) :
    (handlePhotoCapture env ts s).isCapturing = false := by
  unfold handlePhotoCapture
  by_cases hg : s.isCapturing = true ∨ 3 ≤ s.capturedPhotos.length
  · rw [if_pos hg]
    exact h
  · rw [if_neg hg]
    cases captureCurrentFrame env s.currentFilter with
    | none => rfl
    | some r =>
      obtain ⟨c, x, u⟩ := r
      rfl

theorem capture_clears_in_progress_witness :
    initState.isCapturing = false ∧
    (handlePhotoCapture noVideoEnv 5 initState).isCapturing = false :=
  ⟨rfl, capture_clears_in_progress noVideoEnv 5 initState rfl⟩

/-- C9: when the frame read returns nothing (video, canvas or context
unavailable), a capture that passed the entry guard completes as a silent
no-op: stills, strip flag, alert log, strip timer and rendered phase are
unchanged, and the in-progress marker is cleared. -/
theorem failed_capture_silent_noop (env : CaptureEnv) (ts : Nat) (s : BoothState)
    (h1 : s.isCapturing = false) (h2 : s.capturedPhotos.length < 3)
    (h3 : captureCurrentFrame env s.currentFilter = none) :
    (handlePhotoCapture env ts s).capturedPhotos = s.capturedPhotos ∧
    (handlePhotoCapture env ts s).showPhotoStrip = s.showPhotoStrip ∧
    (handlePhotoCapture env ts s).alerts = s.alerts ∧
    (handlePhotoCapture env ts s).isCapturing = false ∧
    (handlePhotoCapture env ts s).stripTimer = s.stripTimer ∧
    phaseOf (handlePhotoCapture env ts s) = phaseOf s := by
  have hg : ¬(s.isCapturing = true ∨ 3 ≤ s.capturedPhotos.length) := by
    rintro (ha | hb)
    · rw [h1] at ha
      exact Bool.false_ne_true ha
    · omega
  unfold handlePhotoCapture
  rw [if_neg hg, h3]
  exact ⟨rfl, rfl, rfl, rfl, rfl, rfl⟩

theorem failed_capture_silent_noop_witness :
    initState.isCapturing = false ∧
    initState.capturedPhotos.length < 3 ∧
    captureCurrentFrame noVideoEnv initState.currentFilter = none ∧
    (handlePhotoCapture noVideoEnv 5 initState).capturedPhotos = initState.capturedPhotos :=
  ⟨rfl, by decide, rfl,
    (failed_capture_silent_noop noVideoEnv 5 initState rfl (by decide) rfl).1⟩

/-- C4: `resetPhotoBooth`, invoked in any state past the intro and loading
views, empties the captured stills, hides the strip (phase returns to
Live), and leaves the camera stream — including all its tracks — unchanged
and open. -/
theorem reset_clears_capture_keeps_stream (s : BoothState)
    (hc : s.showCurtains = false) (hl : s.isLoading = false)
    (ho : streamOpen s.stream = true) :
    (resetPhotoBooth s).capturedPhotos = [] ∧
    (resetPhotoBooth s).showPhotoStrip = false ∧
    phaseOf (resetPhotoBooth s) = SessionPhase.live ∧
    (resetPhotoBooth s).stream = s.stream ∧
    streamOpen (resetPhotoBooth s).stream = true := by
  refine ⟨rfl, rfl, ?_, rfl, ho⟩
  unfold resetPhotoBooth phaseOf
  simp [hc, hl]

theorem reset_clears_capture_keeps_stream_witness :
    reviewState.showCurtains = false ∧
    reviewState.isLoading = false ∧
    streamOpen reviewState.stream = true ∧
    (resetPhotoBooth reviewState).capturedPhotos = [] ∧
    (resetPhotoBooth reviewState).stream = reviewState.stream :=
  ⟨rfl, rfl, rfl, (reset_clears_capture_keeps_stream reviewState rfl rfl rfl).1,
    (reset_clears_capture_keeps_stream reviewState rfl rfl rfl).2.2.2.1⟩

/-- C3: in every reachable state, a pending strip timeout means the still
count is exactly 3 and the pending delay is the fixed 500 ms, and firing it
shows the strip; the strip is never shown while the count is below 3; and a
successful capture that takes the count from 2 to 3 schedules exactly the
500 ms timeout. -/
theorem reaching_three_schedules_review (es : List Event) :
    ((runEvents es initState).stripTimer ≠ none →
      (runEvents es initState).capturedPhotos.length = 3 ∧
      (runEvents es initState).stripTimer = some 500 ∧
      (stepEvent Event.stripFire (runEvents es initState)).showPhotoStrip = true) ∧
    ((runEvents es initState).showPhotoStrip = true →
      (runEvents es initState).capturedPhotos.length = 3) ∧
    (∀ env ts s', s'.isCapturing = false → s'.capturedPhotos.length = 2 →
      (captureCurrentFrame env s'.currentFilter).isSome = true →
      (handlePhotoCapture env ts s').capturedPhotos.length = 3 ∧
      (handlePhotoCapture env ts s').stripTimer = some 500) := by
  refine ⟨?_, fun hs => ((inv_runEvents es).2.2 hs).1, ?_⟩
  · intro ht
    obtain ⟨hlen, h500⟩ := (inv_runEvents es).2.1 ht
    refine ⟨hlen, h500, ?_⟩
    show (match (runEvents es initState).stripTimer with
      | some _ => { runEvents es initState with stripTimer := none, showPhotoStrip := true }
      | none => runEvents es initState).showPhotoStrip = true
    rw [h500]
  · intro env ts s' h1 h2 hcf
    have hg : ¬(s'.isCapturing = true ∨ 3 ≤ s'.capturedPhotos.length) := by
      rintro (ha | hb)
      · rw [h1] at ha
        exact Bool.false_ne_true ha
      · omega
    obtain ⟨r, hr⟩ := Option.isSome_iff_exists.mp hcf
    obtain ⟨c, x, u⟩ := r
    unfold handlePhotoCapture
    rw [if_neg hg, hr]
    have hlen : (s'.capturedPhotos ++ [CapturedPhoto.mk u ts]).length = 3 := by
      simp [h2]
    refine ⟨hlen, ?_⟩
    show (if (s'.capturedPhotos ++ [CapturedPhoto.mk u ts]).length = 3
        then some 500 else s'.stripTimer) = some 500
    rw [if_pos hlen]

theorem reaching_three_schedules_review_witness :
    (runEvents es3 initState).stripTimer ≠ none ∧
    (runEvents es3 initState).capturedPhotos.length = 3 ∧
    (runEvents es3 initState).stripTimer = some 500 ∧
    (stepEvent Event.stripFire (runEvents es3 initState)).showPhotoStrip = true :=
  ⟨by decide, (reaching_three_schedules_review es3).1 (by decide)⟩

/-- C5: in the composite renderer, for every decode arrival order (any
permutation of the three capture indices) the still at capture index `i` is
drawn at x = 20 and vertical offset `20 + i * 185`, scaled to 220 x 165 —
the position is a function of the index alone, not of decode order. -/
theorem strip_layout_index_based (order : List Nat) (photos : List CapturedPhoto)
    (horder : List.Perm order [0, 1, 2]) (hphotos : photos.length = 3) :
    createPhotoStrip true true photos order = some (runLoads order initStripState) ∧
    ∀ i, i < 3 →
      StripOp.drawImage i 20 (20 + i * 185) 220 165 ∈ (runLoads order initStripState).ops := by
  constructor
  · simp [createPhotoStrip, hphotos]
  · have hall : ∀ o ∈ ([0, 1, 2] : List Nat).permutations', ∀ i, i < 3 →
        StripOp.drawImage i 20 (20 + i * 185) 220 165 ∈ (runLoads o initStripState).ops := by
      decide
    exact hall order (List.mem_permutations'.mpr horder)

theorem strip_layout_index_based_witness :
    List.Perm [2, 0, 1] [0, 1, 2] ∧
    photos3.length = 3 ∧
    ∀ i, i < 3 →
      StripOp.drawImage i 20 (20 + i * 185) 220 165 ∈ (runLoads [2, 0, 1] initStripState).ops :=
  ⟨by decide, by decide,
    (strip_layout_index_based [2, 0, 1] photos3 (by decide) (by decide)).2⟩

/-- C7: for every decode arrival order and at every intermediate point of
the rendering (after any number k of the three decode completions), the
caption — anchored at the strip's horizontal centre, 40 units above the
bottom — is on the canvas exactly when all three stills are; it is never
drawn before every photo has been drawn. -/
theorem caption_after_all_decodes (order : List Nat)
    (horder : List.Perm order [0, 1, 2]) :
    ∀ k, k ≤ 3 →
      (StripOp.caption 130 610 ∈ (runLoads (order.take k) initStripState).ops ↔
        ∀ i, i < 3 →
          StripOp.drawImage i 20 (20 + i * 185) 220 165 ∈
            (runLoads (order.take k) initStripState).ops) := by
  have hall : ∀ o ∈ ([0, 1, 2] : List Nat).permutations', ∀ k, k < 4 →
      (StripOp.caption 130 610 ∈ (runLoads (o.take k) initStripState).ops ↔
        ∀ i, i < 3 →
          StripOp.drawImage i 20 (20 + i * 185) 220 165 ∈
            (runLoads (o.take k) initStripState).ops) := by
    decide
  intro k hk
  exact hall order (List.mem_permutations'.mpr horder) k (Nat.lt_succ_of_le hk)

theorem caption_after_all_decodes_witness :
    List.Perm [1, 2, 0] [0, 1, 2] ∧
    (StripOp.caption 130 610 ∈ (runLoads ([1, 2, 0].take 2) initStripState).ops ↔
      ∀ i, i < 3 →
        StripOp.drawImage i 20 (20 + i * 185) 220 165 ∈
          (runLoads ([1, 2, 0].take 2) initStripState).ops) :=
  ⟨by decide, caption_after_all_decodes [1, 2, 0] (by decide) 2 (by decide)⟩

/-- C6: with video, canvas and context available and the context at the
identity transform, `captureCurrentFrame` sizes the canvas to the native
video resolution and performs exactly one draw, horizontally mirrored
(scale -1, destination x = -width, so the frame spans [0, width] flipped)
with the active filter's transform set for that draw; afterwards the
context filter is `"none"` and unchanged transform, so any later draw on
the same surface records filter `"none"` — the filter touches exactly the
one captured frame. -/
theorem capture_mirrored_filter_scoped (v : Video) (c0 : Ctx2D) (f : FilterType)
    (h : c0.scaleX = 1) :
    captureCurrentFrame ⟨some v, true, some c0⟩ f =
      some (⟨v.videoWidth, v.videoHeight⟩, mirroredCaptureCtx v c0 f, "image/jpeg@0.9") ∧
    (mirroredCaptureCtx v c0 f).filter = "none" ∧
    (mirroredCaptureCtx v c0 f).scaleX = c0.scaleX ∧
    ∀ src dx dy, (ctxDrawImage src dx dy (mirroredCaptureCtx v c0 f)).ops =
      (mirroredCaptureCtx v c0 f).ops ++ [⟨src, dx, dy, "none", 1⟩] := by
  refine ⟨?_, rfl, rfl, ?_⟩
  · simp only [captureCurrentFrame, mirroredCaptureCtx, ctxSetFilter, ctxSave,
      ctxScale, ctxDrawImage, ctxRestore, h]
    norm_num
  · intro src dx dy
    simp [ctxDrawImage, mirroredCaptureCtx, h]

theorem capture_mirrored_filter_scoped_witness :
    freshCtx.scaleX = 1 ∧
    captureCurrentFrame ⟨some ⟨640, 480⟩, true, some freshCtx⟩ FilterType.noir =
      some (⟨640, 480⟩, mirroredCaptureCtx ⟨640, 480⟩ freshCtx FilterType.noir,
        "image/jpeg@0.9") :=
  ⟨rfl, (capture_mirrored_filter_scoped ⟨640, 480⟩ freshCtx FilterType.noir rfl).1⟩

/-- C8 counterexample: from the loading phase, when every fallback camera
configuration fails, the catch block surfaces the error AND sets
`isLoading` to false — the session does not remain in `AwaitingDevice`,
contradicting the claim that the loading state is not exited. -/
theorem acquisition_failure_exits_loading_cx :
    phaseOf loadingState = SessionPhase.awaitingDevice ∧
    (requestCameraAccess allFailEnv loadingState).alerts ≠ [] ∧
    (requestCameraAccess allFailEnv loadingState).isLoading = false ∧
    phaseOf (requestCameraAccess allFailEnv loadingState) ≠ SessionPhase.awaitingDevice := by
  refine ⟨rfl, ?_, rfl, ?_⟩ <;> decide

/-- C8 (amended): if device acquisition fails on all fallback
configurations, the error is surfaced to the user (the camera-error alert
is raised) but the loading state IS exited — `isLoading` becomes false and
the session proceeds to the Live view without a stream (the stored stream
is unchanged). -/
theorem acquisition_failure_surfaced_exits_loading (env : AcquireEnv) (s : BoothState)
    (hsup : env.mediaDevicesSupported = true)
    (hfail : ∀ c, env.tryConfig c = none) :
    (requestCameraAccess env s).alerts = s.alerts ++ [cameraErrorAlert] ∧
    (requestCameraAccess env s).isLoading = false ∧
    (requestCameraAccess env s).stream = s.stream ∧
    (s.showCurtains = false → s.showPhotoStrip = false →
      phaseOf (requestCameraAccess env s) = SessionPhase.live) := by
  have hfs : firstStream env.tryConfig cameraConfigs = none := by
    simp [cameraConfigs, firstStream, hfail]
  unfold requestCameraAccess
  rw [hsup]
  rw [if_neg (by simp : ¬(true = false))]
  rw [hfs]
  refine ⟨rfl, rfl, rfl, ?_⟩
  intro hc hstrip
  unfold phaseOf
  simp [hc, hstrip]

theorem acquisition_failure_surfaced_exits_loading_witness :
    allFailEnv.mediaDevicesSupported = true ∧
    (∀ c, allFailEnv.tryConfig c = none) ∧
    (requestCameraAccess allFailEnv loadingState).alerts =
      loadingState.alerts ++ [cameraErrorAlert] ∧
    (requestCameraAccess allFailEnv loadingState).isLoading = false :=
  ⟨rfl, fun _ => rfl,
    (acquisition_failure_surfaced_exits_loading allFailEnv loadingState rfl fun _ => rfl).1,
    (acquisition_failure_surfaced_exits_loading allFailEnv loadingState rfl fun _ => rfl).2.1⟩

end Photobooth
